import Mathlib

/-!
Verification development for the MultisaveX media-download bot.

The definitions below are shallow embeddings of the repository's Python
source (under `src/src/...`).  Pure functions become Lean functions, the
flat-file stores become explicit in-memory collections passed through the
operations, wall-clock time becomes an explicit numeric parameter, and
fallible operations return `Except`/`Option`.  Effects that the claims do
not observe (logging, chat delivery, the file system itself) are dropped;
storage faults are out of scope, so repository reads and writes are total.
-/

/-! ## Domain entity: DownloadRequest (src/domain/entities/download_request.py) -/

/-- `DownloadStatus` enumeration from `download_request.py`. -/
inductive DownloadStatus where
  | pending
  | processing
  | completed
  | failed
  | cancelled
deriving DecidableEq, Repr

/-- `Platform` enumeration from `download_request.py`. -/
inductive Platform where
  | instagram
  | tiktok
deriving DecidableEq, Repr

/-- Python substring containment (`needle in hay`) on character lists. -/
def pyIn (needle : List Char) : List Char → Bool
  | [] => needle.isPrefixOf []
  | c :: rest => needle.isPrefixOf (c :: rest) || pyIn needle rest

/-- Platform inference performed by `DownloadRequest.__post_init__` when no
platform is supplied: substring checks in source order, instagram first,
and no inference at all on an empty URL (`if self.platform is None and self.url`). -/
def inferPlatform (url : List Char) : Option Platform :=
  if url.isEmpty then none
  else if pyIn "instagram.com".data url || pyIn "instagr.am".data url then some .instagram
  else if pyIn "tiktok.com".data url || pyIn "vm.tiktok.com".data url then some .tiktok
  else none

/-- The `DownloadRequest` dataclass.  Timestamps are integer seconds;
`processing_time` is the integer number of seconds recorded by the entity's
terminal transitions.  The free-form metadata map is a string association
list. -/
structure DownloadRequest where
  id : String
  user_id : Int
  url : List Char
  platform : Option Platform
  status : DownloadStatus
  created_at : Option Int
  started_at : Option Int
  completed_at : Option Int
  error_message : Option String
  retry_count : Nat
  max_retries : Nat
  media_files : List String
  metadata : List (String × String)
  total_size : Option Int
  processing_time : Option Int
deriving DecidableEq, Repr

/-- Construction of a `DownloadRequest` (field defaults plus `__post_init__`):
`created_at` is set to the construction time when absent, and the platform is
inferred from the URL when not supplied. -/
def mkDownloadRequest (id : String) (user_id : Int) (url : List Char)
    (platform : Option Platform) (now : Int) : DownloadRequest :=
  { id := id
    user_id := user_id
    url := url
    platform := match platform with
      | some p => some p
      | none => inferPlatform url
    status := .pending
    created_at := some now
    started_at := none
    completed_at := none
    error_message := none
    retry_count := 0
    max_retries := 3
    media_files := []
    metadata := []
    total_size := none
    processing_time := none }

/-- `DownloadRequest.start_processing`. -/
def start_processing (now : Int) (r : DownloadRequest) : DownloadRequest :=
  { r with status := .processing, started_at := some now }

/-- `DownloadRequest.complete_successfully`: sets the completion timestamp,
file list and total size, and computes the processing duration when a start
timestamp is present. -/
def complete_successfully (now : Int) (media_files : List String)
    (total_size : Option Int) (r : DownloadRequest) : DownloadRequest :=
  let r := { r with status := .completed, completed_at := some now,
                    media_files := media_files, total_size := total_size }
  match r.started_at with
  | some s => { r with processing_time := some (now - s) }
  | none => r

/-- `DownloadRequest.fail`. -/
def failRequest (now : Int) (error_message : String) (r : DownloadRequest) :
    DownloadRequest :=
  let r := { r with status := .failed, completed_at := some now,
                    error_message := some error_message }
  match r.started_at with
  | some s => { r with processing_time := some (now - s) }
  | none => r

/-- `DownloadRequest.cancel`. -/
def cancelRequest (now : Int) (r : DownloadRequest) : DownloadRequest :=
  let r := { r with status := .cancelled, completed_at := some now }
  match r.started_at with
  | some s => { r with processing_time := some (now - s) }
  | none => r

/-- `DownloadRequest.can_retry`. -/
def can_retry (r : DownloadRequest) : Bool :=
  decide (r.retry_count < r.max_retries) && decide (r.status = .failed)

/-- `DownloadRequest.increment_retry`: guarded by `can_retry`; bumps the retry
counter, resets the status to pending and clears the error message and both
the start and completion timestamps (the recorded `processing_time` is not
cleared by the source). -/
def increment_retry (r : DownloadRequest) : DownloadRequest :=
  if can_retry r then
    { r with retry_count := r.retry_count + 1
             status := .pending
             error_message := none
             started_at := none
             completed_at := none }
  else r

/-! ## Platform adapters: URL recognition
(`instagram_downloader_service.py` / `tiktok_downloader_service.py`)

The adapters recognize URLs with `re.match` against fixed patterns.  The
patterns are straight-line: literals, the optional prefixes `https?`,
`(?:www\.)?`, `(?:vm\.|vt\.)?`, and trailing character-class repetitions
whose classes never contain the delimiter that follows them, so greedy
matching without backtracking is exact.  Character classes are embedded over
the ASCII fragment (`\w` = letter, digit or underscore). -/

/-- Consume a mandatory literal prefix, returning the remainder. -/
def consumeLit (lit s : List Char) : Option (List Char) :=
  if lit.isPrefixOf s then some (s.drop lit.length) else none

/-- Consume an optional literal prefix (regex `(?:lit)?` before a literal that
cannot overlap it). -/
def consumeOpt (lit s : List Char) : List Char :=
  if lit.isPrefixOf s then s.drop lit.length else s

/-- Consume the regex `https?://` (the two concrete forms are mutually
exclusive prefixes). -/
def afterScheme (s : List Char) : Option (List Char) :=
  match consumeLit "https://".data s with
  | some r => some r
  | none => consumeLit "http://".data s

/-- Consume the regex `(?:vm\.|vt\.)?`. -/
def consumeVmVt (s : List Char) : List Char :=
  if ("vm.".data).isPrefixOf s then s.drop 3
  else if ("vt.".data).isPrefixOf s then s.drop 3
  else s

/-- ASCII `\w`: letter, digit or underscore. -/
def isWordChar (c : Char) : Bool := c.isAlphanum || c = '_'

/-- Character class `[\w-]`. -/
def isWordDash (c : Char) : Bool := isWordChar c || c = '-'

/-- Character class `[\w.-]`. -/
def isWordDotDash (c : Char) : Bool := isWordChar c || c = '.' || c = '-'

/-- True when the list starts with a character of the class (regex `cls` with
a trailing `+` at the end of a pattern under `re.match`). -/
def headIs (cls : Char → Bool) : List Char → Bool
  | [] => false
  | c :: _ => cls c

/-- Match `lit` followed by one-or-more characters of `cls` at the end of a
pattern. -/
def matchLitClass (lit : List Char) (cls : Char → Bool) (s : List Char) : Bool :=
  match consumeLit lit s with
  | none => false
  | some r => headIs cls r

/-- Match the Instagram stories pattern tail
`instagram.com/stories/[\w.-]+/\d+`. -/
def matchStories (s : List Char) : Bool :=
  match consumeLit "instagram.com/stories/".data s with
  | none => false
  | some r =>
    match r with
    | [] => false
    | c :: rest =>
      if isWordDotDash c then
        match rest.dropWhile isWordDotDash with
        | '/' :: r2 => headIs Char.isDigit r2
        | _ => false
      else false

/-- Match the TikTok user-video pattern tail `tiktok.com/@[\w.-]+/video/\d+`. -/
def matchTkUserVideo (s : List Char) : Bool :=
  match consumeLit "tiktok.com/@".data s with
  | none => false
  | some r =>
    match r with
    | [] => false
    | c :: rest =>
      if isWordDotDash c then
        match consumeLit "/video/".data (rest.dropWhile isWordDotDash) with
        | some r2 => headIs Char.isDigit r2
        | none => false
      else false

/-- `InstagramDownloaderService.can_handle`: any of the five patterns matches
at the start of the URL. -/
def instaCanHandle (url : List Char) : Bool :=
  match afterScheme url with
  | none => false
  | some r =>
    let b := consumeOpt "www.".data r
    matchLitClass "instagram.com/p/".data isWordDash b ||
    matchLitClass "instagram.com/reel/".data isWordDash b ||
    matchLitClass "instagram.com/tv/".data isWordDash b ||
    matchStories b ||
    matchLitClass "instagr.am/p/".data isWordDash b

/-- `TikTokDownloaderService.can_handle`: any of the four patterns matches at
the start of the URL. -/
def tiktokCanHandle (url : List Char) : Bool :=
  match afterScheme url with
  | none => false
  | some r =>
    matchTkUserVideo (consumeOpt "www.".data r) ||
    matchLitClass "tiktok.com/".data isWordDotDash (consumeVmVt r) ||
    matchLitClass "tiktok.com/t/".data isWordDotDash (consumeOpt "www.".data r) ||
    matchLitClass "m.tiktok.com/v/".data Char.isDigit r

/-! ## Composite dispatcher (`composite_downloader_service.py`)

The container registers the adapters in the order
`[InstagramDownloaderService, TikTokDownloaderService]`
(`container.py`, line 53); `_get_handler` probes them in that order.
The per-adapter operations are opaque to the dispatcher, so the delegating
operations are parameterized by the resolved adapter's outcome. -/

/-- Error kinds the dispatcher and adapters surface (`shared/exceptions`). -/
inductive DlError where
  | unsupportedUrl
  | downloadError (msg : String)
  | rateLimitError (msg : String)
deriving DecidableEq, Repr

/-- `CompositeDownloaderService._get_handler`: first adapter, in registration
order, whose `can_handle` answers true. -/
def getHandler (url : List Char) : Option Platform :=
  if instaCanHandle url then some .instagram
  else if tiktokCanHandle url then some .tiktok
  else none

/-- `CompositeDownloaderService.can_handle`. -/
def composite_can_handle (url : List Char) : Bool :=
  instaCanHandle url || tiktokCanHandle url

/-- `CompositeDownloaderService.extract_media_info`: raises `UnsupportedUrlError`
when no handler matches, otherwise delegates. -/
def composite_extract_media_info (url : List Char)
    (delegate : Platform → Except DlError α) : Except DlError α :=
  match getHandler url with
  | none => .error .unsupportedUrl
  | some p => delegate p

/-- `CompositeDownloaderService.download_media` applied to a request's URL:
raises `UnsupportedUrlError` when no handler matches, otherwise delegates. -/
def composite_download_media (url : List Char)
    (delegate : Platform → Except DlError (List String)) :
    Except DlError (List String) :=
  match getHandler url with
  | none => .error .unsupportedUrl
  | some p => delegate p

/-- `CompositeDownloaderService.get_media_metadata`: returns `None` (no error)
when no handler matches, otherwise delegates. -/
def composite_get_media_metadata (url : List Char)
    (delegate : Platform → Except DlError (Option α)) :
    Except DlError (Option α) :=
  match getHandler url with
  | none => .ok none
  | some p => delegate p

/-- `CompositeDownloaderService.validate_url`: returns `False` (no error) when
no handler matches, otherwise delegates. -/
def composite_validate_url (url : List Char)
    (delegate : Platform → Except DlError Bool) : Except DlError Bool :=
  match getHandler url with
  | none => .ok false
  | some p => delegate p

/-! ## Rate limiter (`json_rate_limiter_service.py`)

The backing JSON object maps `user_<id>` keys to per-user objects holding
`action_<name>` counters, an optional `custom_limits` map and an optional
`blocked_until` marker.  The store is an association list with the same
first-match/replace-in-place update semantics as a JSON object; wall-clock
time is an explicit natural-number parameter (seconds).  The Boolean results
of the mutating operations are the values returned on the non-fault paths;
storage faults are out of scope. -/

/-- One `action_<name>` counter: `used` requests and the absolute window
reset time. -/
structure ActionData where
  used : Nat
  reset_time : Nat
deriving DecidableEq, Repr

/-- One `custom_limits` entry (and the shape of the default limits). -/
structure LimitConfig where
  requests : Nat
  period_seconds : Nat
deriving DecidableEq, Repr

/-- The `blocked_until` marker: the literal string `"permanent"` or an
absolute expiry timestamp. -/
inductive BlockMark where
  | permanent
  | expiresAt (t : Nat)
deriving DecidableEq, Repr

/-- One `user_<id>` object of the rate-limit store. -/
structure RLUserData where
  actions : List (String × ActionData)
  custom_limits : List (String × LimitConfig)
  blocked_until : Option BlockMark
deriving DecidableEq, Repr

/-- The whole `rate_limits.json` object. -/
abbrev RateStore := List (String × RLUserData)

/-- JSON-object key update: replace the first matching key in place,
otherwise append. -/
def alistInsert {α : Type} (k : String) (v : α) : List (String × α) → List (String × α)
  | [] => [(k, v)]
  | (k', v') :: rest => if k' == k then (k, v) :: rest else (k', v') :: alistInsert k v rest

/-- `JsonRateLimiterService._get_user_key`. -/
def userKey (user_id : Int) : String := "user_" ++ toString user_id

/-- `JsonRateLimiterService._get_action_key`. -/
def actionKey (action : String) : String := "action_" ++ action

/-- The constructor's `default_limits` table plus the literal fallback used
when an action is in neither the table nor the user's custom limits
(`Settings` defaults: download 5/300s, message 10/60s, otherwise 10/60s). -/
def defaultLimits (action : String) : LimitConfig :=
  if action == "download" then ⟨5, 300⟩
  else if action == "message" then ⟨10, 60⟩
  else ⟨10, 60⟩

/-- The empty per-user object (`data.get(user_key, {})`). -/
def emptyRLUser : RLUserData := ⟨[], [], none⟩

/-- Limit configuration reads the user's custom limits first, then the
defaults. -/
def limitConfigFor (u : RLUserData) (action : String) : LimitConfig :=
  match List.lookup action u.custom_limits with
  | some c => c
  | none => defaultLimits action

/-- `JsonRateLimiterService.is_user_blocked`. -/
def is_user_blocked (store : RateStore) (user_id : Int) (now : Nat) : Bool :=
  match List.lookup (userKey user_id) store with
  | none => false
  | some u =>
    match u.blocked_until with
    | none => false
    | some .permanent => true
    | some (.expiresAt t) => decide (now < t)

/-- `JsonRateLimiterService.is_rate_limited`: blocked users are always
limited; a missing counter or an expired window is never limited; otherwise
limited exactly when `used >= limit`. -/
def is_rate_limited (store : RateStore) (user_id : Int) (action : String) (now : Nat) : Bool :=
  if is_user_blocked store user_id now then true
  else
    let u := (List.lookup (userKey user_id) store).getD emptyRLUser
    match List.lookup (actionKey action) u.actions with
    | none => false
    | some ad =>
      let cfg := limitConfigFor u action
      if decide (ad.reset_time ≤ now) then false
      else decide (cfg.requests ≤ ad.used)

/-- Result shape of `get_rate_limit_info`. -/
structure RateLimitInfo where
  remaining : Nat
  reset_time : Nat
  total_limit : Nat
  used : Nat
  period_seconds : Nat
deriving DecidableEq, Repr

/-- `JsonRateLimiterService.get_rate_limit_info`: recomputes a view, showing
a fresh window (without persisting it) when the stored one has expired; a
missing counter defaults its reset time to `now`, which counts as expired. -/
def get_rate_limit_info (store : RateStore) (user_id : Int) (action : String)
    (now : Nat) : RateLimitInfo :=
  let u := (List.lookup (userKey user_id) store).getD emptyRLUser
  let cfg := limitConfigFor u action
  let st := match List.lookup (actionKey action) u.actions with
    | none => ActionData.mk 0 now
    | some ad => ad
  if decide (st.reset_time ≤ now) then
    { remaining := cfg.requests, reset_time := now + cfg.period_seconds,
      total_limit := cfg.requests, used := 0, period_seconds := cfg.period_seconds }
  else
    { remaining := cfg.requests - st.used, reset_time := st.reset_time,
      total_limit := cfg.requests, used := st.used, period_seconds := cfg.period_seconds }

/-- `JsonRateLimiterService.increment_usage` (state part; the source returns
`True` whenever the write succeeds): initializes a missing counter with a
fresh window, resets an expired window, then increments `used` by one. -/
def increment_usage (store : RateStore) (user_id : Int) (action : String)
    (now : Nat) : RateStore :=
  let u := (List.lookup (userKey user_id) store).getD emptyRLUser
  let cfg := limitConfigFor u action
  let st := match List.lookup (actionKey action) u.actions with
    | none => ActionData.mk 0 (now + cfg.period_seconds)
    | some ad => ad
  let st := if decide (st.reset_time ≤ now) then ActionData.mk 0 (now + cfg.period_seconds) else st
  let st := ActionData.mk (st.used + 1) st.reset_time
  alistInsert (userKey user_id) { u with actions := alistInsert (actionKey action) st u.actions } store

/-- `JsonRateLimiterService.reset_user_limits`: replaces the user's object
with one holding only the preserved custom limits and block marker; returns
`True` even when the user has no entry (in which case nothing is written). -/
def reset_user_limits (store : RateStore) (user_id : Int) : Bool × RateStore :=
  match List.lookup (userKey user_id) store with
  | none => (true, store)
  | some u => (true, alistInsert (userKey user_id) ⟨[], u.custom_limits, u.blocked_until⟩ store)

/-- `JsonRateLimiterService.unblock_user`: removes the block marker when one
is stored (writing the store back), and returns `True` in every case. -/
def unblock_user (store : RateStore) (user_id : Int) : Bool × RateStore :=
  match List.lookup (userKey user_id) store with
  | some u =>
    match u.blocked_until with
    | some _ => (true, alistInsert (userKey user_id) { u with blocked_until := none } store)
    | none => (true, store)
  | none => (true, store)

/-! ## Translation adapter (`json_translation_service.py`)

The on-disk dictionaries (one per supported language) are modelled as a
function from language code to a key/value association list; the lazy
in-memory cache is observationally equivalent to reading through it.  The
claims under verification pass no format arguments, so the `str.format`
step (a no-op for empty `kwargs`) is omitted. -/

/-- One language's key-to-text dictionary. -/
abbrev TransDict := List (String × String)

/-- `Settings.SUPPORTED_LANGUAGES`. -/
def SUPPORTED_LANGUAGES : List String := ["en", "ru", "uz"]

/-- `Settings.DEFAULT_LANGUAGE`. -/
def DEFAULT_LANGUAGE : String := "en"

/-- `JsonTranslationService.get_text` (without format arguments): normalize
an unsupported language to the default, look the key up in that language,
fall back to the English dictionary for non-English languages, and finally
fall back to the raw key. -/
def get_text (files : String → TransDict) (key : String) (language : String) : String :=
  let language := if SUPPORTED_LANGUAGES.contains language then language else DEFAULT_LANGUAGE
  let text := List.lookup key (files language)
  let text := match text with
    | some t => some t
    | none => if language ≠ "en" then List.lookup key (files "en") else none
  match text with
  | some t => t
  | none => key

/-- Keys of the reference language absent from another language
(`reference_keys - language_keys` in `get_missing_translations`). -/
def missingKeys (files : String → TransDict) (ref language : String) : List String :=
  ((files ref).map (fun p => p.1)).filter
    (fun k => !(((files language).map (fun p => p.1)).contains k))

/-- `JsonTranslationService.get_missing_translations`: for every supported
language other than the reference, record the nonempty sets of missing keys
in language order. -/
def get_missing_translations (files : String → TransDict) (reference_language : String) :
    List (String × List String) :=
  (SUPPORTED_LANGUAGES.filter (fun l => !(l == reference_language))).foldl
    (fun acc language =>
      if (missingKeys files reference_language language).isEmpty then acc
      else acc ++ [(language, missingKeys files reference_language language)]) []

/-! ## Flat-file repositories
(`json_download_request_repository.py`, `json_analytics_repository.py`)

`update_status` operates directly on the stored JSON records, whose `status`
field is the raw string supplied by the caller, so the stored-record type
carries a string status.  The entity-level `save` upsert used by the
download workflow operates on `DownloadRequest` values (the dict/entity
conversion functions are inverse to each other on the fields involved). -/

/-- One record of `download_requests.json` as `update_status` sees it. -/
structure StoredRequest where
  id : String
  user_id : Int
  url : String
  platform : Option String
  status : String
  created_at : Option Int
  started_at : Option Int
  completed_at : Option Int
  error_message : Option String
  retry_count : Nat
  max_retries : Nat
  media_files : List String
  metadata : List (String × String)
  total_size : Option Int
  processing_time : Option Int
deriving DecidableEq, Repr

/-- The record mutation performed by `update_status` on the matching record:
set the status string, overwrite the error message only for a truthy
(non-`None`, nonempty) argument, stamp `completed_at` for
completed/failed/cancelled, stamp `started_at` for processing, and stamp
nothing for any other status string. -/
def applyStatusUpdate (r : StoredRequest) (status : String)
    (error_message : Option String) (now : Int) : StoredRequest :=
  let r := { r with status := status }
  let r := match error_message with
    | some e => if e ≠ "" then { r with error_message := some e } else r
    | none => r
  if status == "completed" || status == "failed" || status == "cancelled" then
    { r with completed_at := some now }
  else if status == "processing" then
    { r with started_at := some now }
  else r

/-- The scan inside `update_status`: update the first record with the given
id and stop; `none` when no record matches (no write happens). -/
def updateStatusScan (request_id status : String) (error_message : Option String)
    (now : Int) : List StoredRequest → Option (List StoredRequest)
  | [] => none
  | r :: rest =>
    if r.id == request_id then some (applyStatusUpdate r status error_message now :: rest)
    else
      match updateStatusScan request_id status error_message now rest with
      | some rest' => some (r :: rest')
      | none => none

/-- `JsonDownloadRequestRepository.update_status`: returns whether a record
matched, together with the resulting store (unchanged, with no write at all,
when no record matched). -/
def update_status (store : List StoredRequest) (request_id status : String)
    (error_message : Option String) (now : Int) : Bool × List StoredRequest :=
  match updateStatusScan request_id status error_message now store with
  | some store' => (true, store')
  | none => (false, store)

/-- `JsonDownloadRequestRepository.save`: upsert by id — replace the first
record with a matching id in place, otherwise append. -/
def saveDownloadRequest : List DownloadRequest → DownloadRequest → List DownloadRequest
  | [], q => [q]
  | r :: rest, q => if r.id == q.id then q :: rest else r :: saveDownloadRequest rest q

/-- `AnalyticsEventType` enumeration from `analytics.py`. -/
inductive AnalyticsEventType where
  | download_start
  | download_success
  | download_failed
  | user_joined
  | user_banned
  | command_used
  | error_occurred
deriving DecidableEq, Repr

/-- An `analytics.json` record, mirroring the `Analytics` dataclass field
for field (`event_type` is required; the remaining fields default). -/
structure AnalyticsRec where
  id : String
  user_id : Int
  event_type : AnalyticsEventType
  platform : Option String
  media_type : Option String
  url : Option String
  file_size : Option Int
  processing_time : Option Int
  success : Bool
  error_message : Option String
  metadata : List (String × String)
  created_at : Option Int
deriving DecidableEq, Repr

/-- `JsonAnalyticsRepository.save`: unconditional append, no matching on
ids. -/
def analyticsSave (store : List AnalyticsRec) (analytics : AnalyticsRec) :
    List AnalyticsRec := store ++ [analytics]

/-! ## Download workflow (`download_media_use_case.py`)

`DownloadMediaUseCase.execute` is embedded as the source behaves, not as
the surrounding contracts intend.  Past the user lookup and the rate-limit
check, the calls it makes resolve to nothing in this repository:
- on the rate-limited path, `self.rate_limiter_service.get_reset_time`
  (line 49) is defined by no rate limiter here (the port and
  `JsonRateLimiterService` define `get_time_until_reset`), so the attribute
  lookup raises `AttributeError` before any message is sent;
- otherwise `self.downloader_service.validate_url(url, platform)` (line 57)
  passes two arguments to the Downloader port's one-argument
  `validate_url`, raising `TypeError`.
Both raises happen before any repository write; the later calls —
`download_request_repository.create`/`update`, the
`mark_as_processing`/`mark_as_completed`/`mark_as_failed` transitions,
`Analytics(action=...)` (the entity has a required `event_type` and no
`action` field), `analytics_repository.create` and
`user_repository.update` — likewise exist nowhere in the repository, so no
invocation ever reaches a store write. -/

/-- The Python exceptions `execute` raises: `ValueError` is raised
explicitly by the source; `AttributeError` stands for access to a method
that no class in the repository defines; `TypeError` for a call whose
arity does not match the only available signature. -/
inductive PyError where
  | valueError (msg : String)
  | attributeError (attr : String)
  | typeError (msg : String)
deriving DecidableEq, Repr

/-- The inputs of one `execute` invocation together with the outcomes of
the two port calls that resolve and run before the crash: whether the user
lookup finds a user and whether the rate-limit check reports the user
limited. -/
structure DlEnv where
  userExists : Bool
  rateLimited : Bool
  userId : Int
  url : List Char
  platform : String

/-- The two stores the workflow is supposed to write. -/
structure Stores where
  requests : List DownloadRequest
  analytics : List AnalyticsRec
deriving DecidableEq, Repr

/-- `DownloadMediaUseCase.execute`: raises `ValueError` when the user is
missing (line 45); on the rate-limited path raises `AttributeError` at the
nonexistent `get_reset_time` (line 49); every remaining invocation raises
`TypeError` at `validate_url(url, platform)` (line 57), whose port
signature takes only a URL.  No path reaches a repository write, so the
stores pass through unchanged. -/
def execute (env : DlEnv) (s : Stores) : Except PyError DownloadRequest × Stores :=
  if !env.userExists then (.error (.valueError "User not found"), s)
  else if env.rateLimited then (.error (.attributeError "get_reset_time"), s)
  else (.error (.typeError "validate_url"), s)

/-! ## Reachable entity states (for the processing-duration invariant) -/

/-- Requests reachable from construction by any sequence of the entity's own
operations, each performed at an arbitrary wall-clock instant. -/
inductive ReachableRequest : DownloadRequest → Prop where
  | construct (id : String) (user_id : Int) (url : List Char)
      (platform : Option Platform) (now : Int) :
      ReachableRequest (mkDownloadRequest id user_id url platform now)
  | step_start (now : Int) (r : DownloadRequest) :
      ReachableRequest r → ReachableRequest (start_processing now r)
  | step_complete (now : Int) (media_files : List String) (total_size : Option Int)
      (r : DownloadRequest) :
      ReachableRequest r → ReachableRequest (complete_successfully now media_files total_size r)
  | step_fail (now : Int) (msg : String) (r : DownloadRequest) :
      ReachableRequest r → ReachableRequest (failRequest now msg r)
  | step_cancel (now : Int) (r : DownloadRequest) :
      ReachableRequest r → ReachableRequest (cancelRequest now r)
  | step_retry (r : DownloadRequest) :
      ReachableRequest r → ReachableRequest (increment_retry r)

/-- `JsonDownloadRequestRepository.get_by_id`: first stored record with the
given id. -/
def findRequest (store : List DownloadRequest) (request_id : String) :
    Option DownloadRequest :=
  store.find? (fun r => r.id == request_id)

/-- `n` successive `increment_usage` calls for the `download` action by one
user, all at time `t`, starting from an empty store (a user with no prior
rate-limit state). -/
def incDownloadN (user_id : Int) (t : Nat) : Nat → RateStore
  | 0 => []
  | n + 1 => increment_usage (incDownloadN user_id t n) user_id "download" t

/-! ## Substring facts used to relate URL recognition to platform inference -/

/-- A list is a Boolean prefix of itself followed by anything. -/
theorem selfIsPrefixOfAppend : ∀ (n rest : List Char), n.isPrefixOf (n ++ rest) = true := by
  intro n rest
  induction n with
  | nil => simp [List.isPrefixOf]
  | cons c n ih => simp [List.isPrefixOf, ih]

/-- Boolean prefixes decompose the list. -/
theorem prefixAppendDrop : ∀ (p s : List Char), p.isPrefixOf s = true → s = p ++ s.drop p.length := by
  intro p
  induction p with
  | nil => intro s _; simp
  | cons c p ih =>
    intro s h
    cases s with
    | nil => simp [List.isPrefixOf] at h
    | cons d s' =>
      simp only [List.isPrefixOf, Bool.and_eq_true, beq_iff_eq] at h
      obtain ⟨rfl, h2⟩ := h
      simpa using ih s' h2

/-- A Boolean prefix stays a prefix after extending the list on the right. -/
theorem isPrefixOfExt (n mid rest : List Char) (h : n.isPrefixOf mid = true) :
    n.isPrefixOf (mid ++ rest) = true := by
  rw [prefixAppendDrop n mid h, List.append_assoc]
  exact selfIsPrefixOfAppend n _

/-- A Boolean prefix is a Python substring. -/
theorem pyInOfIsPrefixOf (n s : List Char) (h : n.isPrefixOf s = true) :
    pyIn n s = true := by
  cases s with
  | nil => simpa [pyIn] using h
  | cons c rest => simp [pyIn, h]

/-- Python substring containment survives prepending. -/
theorem pyInAppendLeft (pre n s : List Char) (h : pyIn n s = true) :
    pyIn n (pre ++ s) = true := by
  induction pre with
  | nil => simpa using h
  | cons c pre ih => simp [pyIn, ih]

/-- Python substring containment survives appending. -/
theorem pyInAppendRight (n mid rest : List Char) (h : pyIn n mid = true) :
    pyIn n (mid ++ rest) = true := by
  induction mid with
  | nil =>
    simp only [pyIn] at h
    exact pyInOfIsPrefixOf n rest (by cases n <;> simp_all [List.isPrefixOf])
  | cons c mid ih =>
    simp only [pyIn, Bool.or_eq_true] at h
    rcases h with h | h
    · exact pyInOfIsPrefixOf n _ (isPrefixOfExt n (c :: mid) rest h)
    · simpa [pyIn] using Or.inr (ih h)

/-- Main glue fact: a substring of an inner segment is a substring of the
whole list. -/
theorem pyInGlue (n pre mid rest s : List Char) (hs : s = pre ++ (mid ++ rest))
    (hm : pyIn n mid = true) : pyIn n s = true := by
  subst hs
  exact pyInAppendLeft pre n _ (pyInAppendRight n mid rest hm)

/-- A nonempty needle never occurs in the empty URL. -/
theorem pyInNeNil (c : Char) (n url : List Char) (h : pyIn (c :: n) url = true) :
    url ≠ [] := by
  intro hurl
  subst hurl
  simp [pyIn, List.isPrefixOf] at h

/-- Successful literal consumption decomposes the input. -/
theorem consumeLitEq (lit s r : List Char) (h : consumeLit lit s = some r) :
    s = lit ++ r := by
  unfold consumeLit at h
  split at h
  · rename_i hp
    cases h
    exact prefixAppendDrop lit s hp
  · cases h

/-- Optional literal consumption leaves a suffix of the input. -/
theorem consumeOptDecomp (lit s : List Char) : ∃ w, s = w ++ consumeOpt lit s := by
  unfold consumeOpt
  split
  · rename_i hp
    exact ⟨lit, prefixAppendDrop lit s hp⟩
  · exact ⟨[], rfl⟩

/-- `vm.`/`vt.` consumption leaves a suffix of the input. -/
theorem consumeVmVtDecomp (s : List Char) : ∃ w, s = w ++ consumeVmVt s := by
  unfold consumeVmVt
  split
  · rename_i hp
    exact ⟨"vm.".data, prefixAppendDrop "vm.".data s hp⟩
  · split
    · rename_i hp
      exact ⟨"vt.".data, prefixAppendDrop "vt.".data s hp⟩
    · exact ⟨[], rfl⟩

/-- Scheme consumption decomposes the URL. -/
theorem afterSchemeDecomp (s r : List Char) (h : afterScheme s = some r) :
    ∃ pre, s = pre ++ r := by
  unfold afterScheme at h
  cases hh : consumeLit "https://".data s with
  | some r' =>
    rw [hh] at h
    cases h
    exact ⟨"https://".data, consumeLitEq _ _ _ hh⟩
  | none =>
    rw [hh] at h
    exact ⟨"http://".data, consumeLitEq _ _ _ h⟩

/-- A literal-plus-class match starts with the literal. -/
theorem matchLitClassDecomp (lit : List Char) (cls : Char → Bool) (s : List Char)
    (h : matchLitClass lit cls s = true) : ∃ rest, s = lit ++ rest := by
  unfold matchLitClass at h
  cases hh : consumeLit lit s with
  | none => rw [hh] at h; cases h
  | some r => exact ⟨r, consumeLitEq _ _ _ hh⟩

/-- A stories match starts with its literal. -/
theorem matchStoriesDecomp (s : List Char) (h : matchStories s = true) :
    ∃ rest, s = "instagram.com/stories/".data ++ rest := by
  unfold matchStories at h
  cases hh : consumeLit "instagram.com/stories/".data s with
  | none => rw [hh] at h; cases h
  | some r => exact ⟨r, consumeLitEq _ _ _ hh⟩

/-- A TikTok user-video match starts with its literal. -/
theorem matchTkUserVideoDecomp (s : List Char) (h : matchTkUserVideo s = true) :
    ∃ rest, s = "tiktok.com/@".data ++ rest := by
  unfold matchTkUserVideo at h
  cases hh : consumeLit "tiktok.com/@".data s with
  | none => rw [hh] at h; cases h
  | some r => exact ⟨r, consumeLitEq _ _ _ hh⟩

/-- Every URL the Instagram adapter recognizes contains one of the two
substrings the entity constructor tests for Instagram. -/
theorem instaHasSub (url : List Char) (h : instaCanHandle url = true) :
    (pyIn "instagram.com".data url || pyIn "instagr.am".data url) = true := by
  unfold instaCanHandle at h
  cases hA : afterScheme url with
  | none => rw [hA] at h; cases h
  | some r =>
    rw [hA] at h
    rw [Bool.or_eq_true]
    obtain ⟨pre, hpre⟩ := afterSchemeDecomp url r hA
    obtain ⟨w, hw⟩ := consumeOptDecomp "www.".data r
    simp only [Bool.or_eq_true] at h
    have hurl : ∀ rest lit, consumeOpt "www.".data r = lit ++ rest →
        url = (pre ++ w) ++ (lit ++ rest) := by
      intro rest lit hb
      rw [hpre, hw, hb, List.append_assoc]
    rcases h with ((((h | h) | h) | h) | h)
    · obtain ⟨rest, hb⟩ := matchLitClassDecomp _ _ _ h
      have hs := hurl rest _ hb
      exact Or.inl (pyInGlue "instagram.com".data _ _ _ _ hs (by decide))
    · obtain ⟨rest, hb⟩ := matchLitClassDecomp _ _ _ h
      have hs := hurl rest _ hb
      exact Or.inl (pyInGlue "instagram.com".data _ _ _ _ hs (by decide))
    · obtain ⟨rest, hb⟩ := matchLitClassDecomp _ _ _ h
      have hs := hurl rest _ hb
      exact Or.inl (pyInGlue "instagram.com".data _ _ _ _ hs (by decide))
    · obtain ⟨rest, hb⟩ := matchStoriesDecomp _ h
      have hs := hurl rest _ hb
      exact Or.inl (pyInGlue "instagram.com".data _ _ _ _ hs (by decide))
    · obtain ⟨rest, hb⟩ := matchLitClassDecomp _ _ _ h
      have hs := hurl rest _ hb
      exact Or.inr (pyInGlue "instagr.am".data _ _ _ _ hs (by decide))

/-- Every URL the TikTok adapter recognizes contains the substring the entity
constructor tests for TikTok. -/
theorem tiktokHasSub (url : List Char) (h : tiktokCanHandle url = true) :
    pyIn "tiktok.com".data url = true := by
  unfold tiktokCanHandle at h
  cases hA : afterScheme url with
  | none => rw [hA] at h; cases h
  | some r =>
    rw [hA] at h
    obtain ⟨pre, hpre⟩ := afterSchemeDecomp url r hA
    simp only [Bool.or_eq_true] at h
    rcases h with (((h | h) | h) | h)
    · obtain ⟨w, hw⟩ := consumeOptDecomp "www.".data r
      obtain ⟨rest, hb⟩ := matchTkUserVideoDecomp _ h
      have hs : url = (pre ++ w) ++ ("tiktok.com/@".data ++ rest) := by
        rw [hpre, hw, hb, List.append_assoc]
      exact pyInGlue "tiktok.com".data _ _ _ _ hs (by decide)
    · obtain ⟨w, hw⟩ := consumeVmVtDecomp r
      obtain ⟨rest, hb⟩ := matchLitClassDecomp _ _ _ h
      have hs : url = (pre ++ w) ++ ("tiktok.com/".data ++ rest) := by
        rw [hpre, hw, hb, List.append_assoc]
      exact pyInGlue "tiktok.com".data _ _ _ _ hs (by decide)
    · obtain ⟨w, hw⟩ := consumeOptDecomp "www.".data r
      obtain ⟨rest, hb⟩ := matchLitClassDecomp _ _ _ h
      have hs : url = (pre ++ w) ++ ("tiktok.com/t/".data ++ rest) := by
        rw [hpre, hw, hb, List.append_assoc]
      exact pyInGlue "tiktok.com".data _ _ _ _ hs (by decide)
    · obtain ⟨rest, hb⟩ := matchLitClassDecomp _ _ _ h
      have hs : url = pre ++ ("m.tiktok.com/v/".data ++ rest) := by
        rw [hpre, hb]
      exact pyInGlue "tiktok.com".data _ _ _ _ hs (by decide)

/-! ## Claim C4: retry guard and reset semantics -/

/-- C4: `increment_retry` changes the request only when its status is failed
and `retry_count < max_retries`, in which case it sets the status to
pending, clears the error message and both timestamps, increments
`retry_count` by exactly one and leaves every other field unchanged; in
every other case the call is a no-op. -/
theorem retryGuardSemantics (r : DownloadRequest) :
    (r.status = .failed ∧ r.retry_count < r.max_retries →
      (increment_retry r).status = .pending ∧
      (increment_retry r).error_message = none ∧
      (increment_retry r).started_at = none ∧
      (increment_retry r).completed_at = none ∧
      (increment_retry r).retry_count = r.retry_count + 1 ∧
      (increment_retry r).id = r.id ∧
      (increment_retry r).user_id = r.user_id ∧
      (increment_retry r).url = r.url ∧
      (increment_retry r).platform = r.platform ∧
      (increment_retry r).created_at = r.created_at ∧
      (increment_retry r).max_retries = r.max_retries ∧
      (increment_retry r).media_files = r.media_files ∧
      (increment_retry r).metadata = r.metadata ∧
      (increment_retry r).total_size = r.total_size ∧
      (increment_retry r).processing_time = r.processing_time) ∧
    (¬ (r.status = .failed ∧ r.retry_count < r.max_retries) →
      increment_retry r = r) := by
  constructor
  · rintro ⟨h1, h2⟩
    have hc : can_retry r = true := by simp [can_retry, h1, h2]
    simp [increment_retry, hc]
  · intro h
    have hc : can_retry r = false := by
      rw [can_retry]
      by_cases h1 : r.status = .failed
      · have h2 : ¬ r.retry_count < r.max_retries := fun h2 => h ⟨h1, h2⟩
        simp [h2]
      · simp [h1]
    simp [increment_retry, hc]

/-- Witness for C4 at a concrete failed request (retried) and a concrete
completed request (no-op). -/
theorem retryGuardSemantics_witness :
    ((increment_retry (failRequest 3 "boom" (start_processing 1
        (mkDownloadRequest "r1" 1 [] none 0)))).status = DownloadStatus.pending ∧
     (increment_retry (failRequest 3 "boom" (start_processing 1
        (mkDownloadRequest "r1" 1 [] none 0)))).retry_count = 1) ∧
    increment_retry (complete_successfully 2 ["f.mp4"] none
        (mkDownloadRequest "r2" 1 [] none 0)) =
      complete_successfully 2 ["f.mp4"] none (mkDownloadRequest "r2" 1 [] none 0) := by
  refine ⟨?_, ?_⟩
  · have h := (retryGuardSemantics (failRequest 3 "boom" (start_processing 1
      (mkDownloadRequest "r1" 1 [] none 0)))).1 ⟨by decide, by decide⟩
    exact ⟨h.1, h.2.2.2.2.1⟩
  · exact (retryGuardSemantics _).2 (by decide)

/-! ## Claim C9: analytics persistence is append-only -/

/-- C9: `JsonAnalyticsRepository.save` appends the record at the end of the
stored array unconditionally — the count grows by exactly one, every
previously stored record is untouched, and a record whose id is already
present is still appended rather than deduplicated or updated in place. -/
theorem analyticsAppendOnly (store : List AnalyticsRec) (arec : AnalyticsRec) :
    (analyticsSave store arec).length = store.length + 1 ∧
    (analyticsSave store arec).take store.length = store ∧
    (analyticsSave store arec).getLast? = some arec ∧
    ((∃ r ∈ store, r.id = arec.id) →
      (analyticsSave store arec).countP (fun r => r.id == arec.id) =
        store.countP (fun r => r.id == arec.id) + 1) := by
  refine ⟨by simp [analyticsSave], ?_, ?_, ?_⟩
  · simp [analyticsSave, List.take_left]
  · simp [analyticsSave]
  · intro _
    simp [analyticsSave, List.countP_append, List.countP_cons]

/-- Witness for C9 at a one-record store receiving a second record with the
same id. -/
theorem analyticsAppendOnly_witness :
    (analyticsSave
        [{ id := "a1", user_id := 7, event_type := AnalyticsEventType.download_success,
           platform := none, media_type := none, url := none, file_size := none,
           processing_time := none, success := true, error_message := none,
           metadata := [], created_at := none }]
        { id := "a1", user_id := 7, event_type := AnalyticsEventType.download_failed,
          platform := none, media_type := none, url := none, file_size := none,
          processing_time := none, success := false, error_message := some "boom",
          metadata := [], created_at := none }).countP (fun r => r.id == "a1") =
      ([{ id := "a1", user_id := 7, event_type := AnalyticsEventType.download_success,
          platform := none, media_type := none, url := none, file_size := none,
          processing_time := none, success := true, error_message := none,
          metadata := [], created_at := none }] : List AnalyticsRec).countP
        (fun r => r.id == "a1") + 1 :=
  (analyticsAppendOnly _ _).2.2.2 ⟨_, List.mem_singleton.mpr rfl, rfl⟩

/-! ## Claim C3: platform inference versus dispatcher routing -/

/-- C3 counterexample: the claimed equivalence between constructor inference
and dispatcher routing fails — `https://www.instagram.com/` is inferred as
instagram by the substring rule while no adapter pattern matches it, and
`https://tiktok.com/t/instagram.com` is routed to the TikTok adapter while
the substring rule infers instagram. -/
theorem inferMatchesRouting_counterexample :
    ¬ (∀ url : List Char,
        (inferPlatform url = some Platform.instagram ↔
          getHandler url = some Platform.instagram) ∧
        (inferPlatform url = some Platform.tiktok ↔
          getHandler url = some Platform.tiktok)) := by
  intro h
  have h1 := (h "https://www.instagram.com/".data).1.mp (by decide)
  exact absurd h1 (by decide)

/-- C3 (amended): when the dispatcher resolves the Instagram adapter, the
constructor's inference yields instagram; when it resolves the TikTok
adapter, the URL contains `tiktok.com`, and the inference yields tiktok
provided the URL does not also contain one of the Instagram substrings
(which the constructor checks first).  URLs no adapter handles carry no
routing constraint on the inference. -/
theorem inferMatchesRouting (url : List Char) :
    (getHandler url = some Platform.instagram →
      inferPlatform url = some Platform.instagram) ∧
    (getHandler url = some Platform.tiktok →
      pyIn "tiktok.com".data url = true ∧
      ((pyIn "instagram.com".data url || pyIn "instagr.am".data url) = false →
        inferPlatform url = some Platform.tiktok)) := by
  constructor
  · intro h
    cases hi : instaCanHandle url with
    | false =>
      exfalso
      cases ht : tiktokCanHandle url with
      | false => simp [getHandler, hi, ht] at h
      | true => simp [getHandler, hi, ht] at h
    | true =>
      have hsub := instaHasSub url hi
      cases url with
      | nil => exact absurd hi (by decide)
      | cons c rest => simp [inferPlatform, hsub]
  · intro h
    cases hi : instaCanHandle url with
    | true => exfalso; simp [getHandler, hi] at h
    | false =>
      cases ht : tiktokCanHandle url with
      | false => exfalso; simp [getHandler, hi, ht] at h
      | true =>
        have htk := tiktokHasSub url ht
        refine ⟨htk, ?_⟩
        intro hno
        rw [Bool.or_eq_false_iff] at hno
        cases url with
        | nil => exact absurd ht (by decide)
        | cons c rest => simp [inferPlatform, hno.1, hno.2, htk]

/-- Witness for C3 at a post URL routed to Instagram and a short link routed
to TikTok. -/
theorem inferMatchesRouting_witness :
    inferPlatform "https://www.instagram.com/p/ABC123/".data = some Platform.instagram ∧
    inferPlatform "https://vm.tiktok.com/ZMabcd/".data = some Platform.tiktok :=
  ⟨(inferMatchesRouting _).1 (by decide),
   (((inferMatchesRouting _).2 (by decide)).2 (by decide))⟩

/-! ## Claim C5: behaviour of the composite dispatcher on unsupported URLs -/

/-- C5 counterexample: for `https://example.com/video` (recognized by no
adapter) `can_handle` is false and, contrary to the claim, the delegating
operations `get_media_metadata` and `validate_url` do not fail with an
UnsupportedUrl error — they return `None` and `False` respectively. -/
theorem unsupportedUrlBehaviour_counterexample :
    composite_can_handle "https://example.com/video".data = false ∧
    composite_get_media_metadata (α := Unit) "https://example.com/video".data
      (fun _ => Except.ok none) = Except.ok none ∧
    composite_validate_url "https://example.com/video".data
      (fun _ => Except.ok true) = Except.ok false ∧
    composite_get_media_metadata (α := Unit) "https://example.com/video".data
      (fun _ => Except.ok none) ≠ Except.error DlError.unsupportedUrl ∧
    composite_validate_url "https://example.com/video".data
      (fun _ => Except.ok true) ≠ Except.error DlError.unsupportedUrl := by
  refine ⟨by decide, ?_, ?_, ?_, ?_⟩ <;>
    simp [composite_get_media_metadata, composite_validate_url, getHandler,
      show instaCanHandle "https://example.com/video".data = false from by decide,
      show tiktokCanHandle "https://example.com/video".data = false from by decide]

/-- C5 (amended): for every URL no adapter recognizes, `can_handle` is
false, no handler is resolved, `extract_media_info` and `download_media`
fail with UnsupportedUrl, `get_media_metadata` returns `None` without
raising, and `validate_url` returns `False` without raising. -/
theorem unsupportedUrlBehaviour {α : Type} (url : List Char)
    (dInfo : Platform → Except DlError α)
    (dDl : Platform → Except DlError (List String))
    (dMeta : Platform → Except DlError (Option α))
    (dVal : Platform → Except DlError Bool)
    (h : composite_can_handle url = false) :
    getHandler url = none ∧
    composite_extract_media_info url dInfo = Except.error DlError.unsupportedUrl ∧
    composite_download_media url dDl = Except.error DlError.unsupportedUrl ∧
    composite_get_media_metadata url dMeta = Except.ok none ∧
    composite_validate_url url dVal = Except.ok false := by
  rw [composite_can_handle, Bool.or_eq_false_iff] at h
  have hg : getHandler url = none := by
    rw [getHandler, h.1, h.2]
    simp
  exact ⟨hg,
    by rw [composite_extract_media_info, hg],
    by rw [composite_download_media, hg],
    by rw [composite_get_media_metadata, hg],
    by rw [composite_validate_url, hg]⟩

/-- Witness for C5 at `https://example.com/video`. -/
theorem unsupportedUrlBehaviour_witness :
    composite_extract_media_info (α := Unit) "https://example.com/video".data
      (fun _ => Except.ok ()) = Except.error DlError.unsupportedUrl ∧
    composite_download_media "https://example.com/video".data
      (fun _ => Except.ok ["f.mp4"]) = Except.error DlError.unsupportedUrl :=
  ⟨(unsupportedUrlBehaviour "https://example.com/video".data
      (fun _ => Except.ok ()) (fun _ => Except.ok ["f.mp4"])
      (fun _ => Except.ok none) (fun _ => Except.ok true) (by decide)).2.1,
   (unsupportedUrlBehaviour "https://example.com/video".data
      (fun _ => Except.ok ()) (fun _ => Except.ok ["f.mp4"])
      (fun _ => Except.ok none) (fun _ => Except.ok true) (by decide)).2.2.1⟩

/-! ## Claim C6: the processing-duration invariant -/

/-- C6 counterexample: the request obtained by starting at time 0, failing at
time 1 and then retrying is reachable, still carries `processing_time = 1`,
but has no start timestamp at all (`increment_retry` clears the timestamps
without clearing the recorded duration), so the claimed invariant fails. -/
theorem processingTimeInvariant_counterexample :
    ¬ (∀ r : DownloadRequest, ReachableRequest r →
        ∀ p, r.processing_time = some p →
          ∃ s c, r.started_at = some s ∧ r.completed_at = some c ∧ p = c - s) := by
  intro h
  have hr : ReachableRequest (increment_retry (failRequest 1 "e"
      (start_processing 0 (mkDownloadRequest "r" 1 [] none 0)))) :=
    .step_retry _ (.step_fail _ _ _ (.step_start _ _ (.construct _ _ _ _ _)))
  obtain ⟨s, c, hs, _, _⟩ := h _ hr 1 (by decide)
  have hnone : (increment_retry (failRequest 1 "e"
      (start_processing 0 (mkDownloadRequest "r" 1 [] none 0)))).started_at = none := by
    decide
  rw [hnone] at hs
  cases hs

/-- C6 (amended): each terminal transition (`complete_successfully`, `fail`,
`cancel`) performed at time `now` on a request whose `started_at` is set to
`s` leaves a request on which the invariant holds: the recorded
`processing_time` equals `completed_at - started_at = now - s`.  The
invariant is established at every terminal transition but is not preserved
by a subsequent `increment_retry` (which clears the timestamps and keeps the
duration), as the counterexample shows. -/
theorem processingTimeInvariant (r : DownloadRequest) (s : Int)
    (h : r.started_at = some s) (now : Int) (media : List String)
    (total : Option Int) (msg : String) :
    ((complete_successfully now media total r).processing_time = some (now - s) ∧
     (complete_successfully now media total r).started_at = some s ∧
     (complete_successfully now media total r).completed_at = some now) ∧
    ((failRequest now msg r).processing_time = some (now - s) ∧
     (failRequest now msg r).started_at = some s ∧
     (failRequest now msg r).completed_at = some now) ∧
    ((cancelRequest now r).processing_time = some (now - s) ∧
     (cancelRequest now r).started_at = some s ∧
     (cancelRequest now r).completed_at = some now) := by
  refine ⟨⟨?_, ?_, ?_⟩, ⟨?_, ?_, ?_⟩, ⟨?_, ?_, ?_⟩⟩ <;>
    simp [complete_successfully, failRequest, cancelRequest, h]

/-- Witness for C6 at a request started at time 2 and completed at time 5. -/
theorem processingTimeInvariant_witness :
    (complete_successfully 5 ["f.mp4"] none (start_processing 2
      (mkDownloadRequest "w" 1 [] none 0))).processing_time = some 3 := by
  have h := (processingTimeInvariant (start_processing 2
    (mkDownloadRequest "w" 1 [] none 0)) 2 (by decide) 5 ["f.mp4"] none "m").1.1
  simpa using h

/-! ## Claim C8: frame conditions of `update_status` -/

/-- Helper: the scan finds nothing when no stored id matches. -/
theorem scanNoMatch (request_id status : String) (error_message : Option String)
    (now : Int) :
    ∀ store : List StoredRequest, (∀ r ∈ store, r.id ≠ request_id) →
      updateStatusScan request_id status error_message now store = none := by
  intro store
  induction store with
  | nil => intro _; rfl
  | cons r rest ih =>
    intro h
    have hne : (r.id == request_id) = false := by
      simpa using h r (List.mem_cons_self r rest)
    simp [updateStatusScan, hne,
      ih (fun q hq => h q (List.mem_cons_of_mem r hq))]

/-- Helper: the scan rewrites exactly the first matching record. -/
theorem scanFirstMatch (request_id status : String) (error_message : Option String)
    (now : Int) :
    ∀ (pre : List StoredRequest) (r : StoredRequest) (post : List StoredRequest),
      (∀ q ∈ pre, q.id ≠ request_id) → r.id = request_id →
      updateStatusScan request_id status error_message now (pre ++ r :: post) =
        some (pre ++ applyStatusUpdate r status error_message now :: post) := by
  intro pre
  induction pre with
  | nil =>
    intro r post _ hr
    simp [updateStatusScan, hr]
  | cons q pre ih =>
    intro r post hpre hr
    have hq : (q.id == request_id) = false := by
      simpa using hpre q (List.mem_cons_self q pre)
    simp [updateStatusScan, hq,
      ih r post (fun x hx => hpre x (List.mem_cons_of_mem q hx)) hr]

/-- C8 (amended): `update_status` returns false and writes nothing when no
record has the given id; otherwise it returns true and rewrites exactly the
first matching record, leaving every other record untouched.  On the
rewritten record only the status string, the error message (and only for a
non-empty supplied message) and the timestamps change, with `completed_at`
stamped for completed/failed/cancelled, `started_at` stamped for
processing, and — amending the claim — no timestamp at all stamped for any
other status value (such as `pending`). -/
theorem updateStatusFrame (store : List StoredRequest) (request_id status : String)
    (err : Option String) (now : Int) :
    ((∀ r ∈ store, r.id ≠ request_id) →
      update_status store request_id status err now = (false, store)) ∧
    (∀ (pre : List StoredRequest) (r : StoredRequest) (post : List StoredRequest),
      store = pre ++ r :: post → (∀ q ∈ pre, q.id ≠ request_id) →
      r.id = request_id →
      update_status store request_id status err now =
        (true, pre ++ applyStatusUpdate r status err now :: post)) ∧
    (∀ r : StoredRequest,
      (applyStatusUpdate r status err now).status = status ∧
      (applyStatusUpdate r status err now).id = r.id ∧
      (applyStatusUpdate r status err now).user_id = r.user_id ∧
      (applyStatusUpdate r status err now).url = r.url ∧
      (applyStatusUpdate r status err now).platform = r.platform ∧
      (applyStatusUpdate r status err now).created_at = r.created_at ∧
      (applyStatusUpdate r status err now).retry_count = r.retry_count ∧
      (applyStatusUpdate r status err now).max_retries = r.max_retries ∧
      (applyStatusUpdate r status err now).media_files = r.media_files ∧
      (applyStatusUpdate r status err now).metadata = r.metadata ∧
      (applyStatusUpdate r status err now).total_size = r.total_size ∧
      (applyStatusUpdate r status err now).processing_time = r.processing_time ∧
      ((err = none ∨ err = some "") →
        (applyStatusUpdate r status err now).error_message = r.error_message) ∧
      (∀ e, err = some e → e ≠ "" →
        (applyStatusUpdate r status err now).error_message = some e) ∧
      ((status = "completed" ∨ status = "failed" ∨ status = "cancelled") →
        (applyStatusUpdate r status err now).completed_at = some now ∧
        (applyStatusUpdate r status err now).started_at = r.started_at) ∧
      (status = "processing" →
        (applyStatusUpdate r status err now).started_at = some now ∧
        (applyStatusUpdate r status err now).completed_at = r.completed_at) ∧
      (¬ (status = "completed" ∨ status = "failed" ∨ status = "cancelled") →
        status ≠ "processing" →
        (applyStatusUpdate r status err now).started_at = r.started_at ∧
        (applyStatusUpdate r status err now).completed_at = r.completed_at)) := by
  refine ⟨?_, ?_, ?_⟩
  · intro h
    rw [update_status, scanNoMatch request_id status err now store h]
  · intro pre r post hst hpre hr
    subst hst
    rw [update_status, scanFirstMatch request_id status err now pre r post hpre hr]
  · intro r
    refine ⟨?_, ?_, ?_, ?_, ?_, ?_, ?_, ?_, ?_, ?_, ?_, ?_, ?_, ?_, ?_, ?_, ?_⟩
    · cases err <;> simp only [applyStatusUpdate] <;> split_ifs <;> simp
    · cases err <;> simp only [applyStatusUpdate] <;> split_ifs <;> simp
    · cases err <;> simp only [applyStatusUpdate] <;> split_ifs <;> simp
    · cases err <;> simp only [applyStatusUpdate] <;> split_ifs <;> simp
    · cases err <;> simp only [applyStatusUpdate] <;> split_ifs <;> simp
    · cases err <;> simp only [applyStatusUpdate] <;> split_ifs <;> simp
    · cases err <;> simp only [applyStatusUpdate] <;> split_ifs <;> simp
    · cases err <;> simp only [applyStatusUpdate] <;> split_ifs <;> simp
    · cases err <;> simp only [applyStatusUpdate] <;> split_ifs <;> simp
    · cases err <;> simp only [applyStatusUpdate] <;> split_ifs <;> simp
    · cases err <;> simp only [applyStatusUpdate] <;> split_ifs <;> simp
    · cases err <;> simp only [applyStatusUpdate] <;> split_ifs <;> simp
    · rintro (rfl | rfl) <;>
        simp only [applyStatusUpdate] <;> split_ifs <;> simp_all
    · rintro e rfl he
      simp only [applyStatusUpdate]
      split_ifs <;> simp_all
    · rintro (rfl | rfl | rfl) <;>
        cases err <;> simp only [applyStatusUpdate] <;> split_ifs <;> simp_all
    · rintro rfl
      cases err <;> simp only [applyStatusUpdate] <;> split_ifs <;> simp_all
    · intro h1 h2
      have hb1 : (status == "completed" || status == "failed" || status == "cancelled") = false := by
        simp only [Bool.or_eq_false_iff, beq_eq_false_iff_ne]
        exact ⟨⟨fun h => h1 (Or.inl h), fun h => h1 (Or.inr (Or.inl h))⟩,
          fun h => h1 (Or.inr (Or.inr h))⟩
      have hb2 : (status == "processing") = false := by
        simpa using h2
      cases err <;> simp only [applyStatusUpdate, hb1, hb2] <;> split_ifs <;> simp_all

/-- C8 counterexample: updating a matching record to status `pending` (a
legitimate status value) mutates the status but stamps neither timestamp,
contradicting the claim that every update stamps exactly one timestamp. -/
theorem updateStatusFrame_counterexample :
    update_status
      [{ id := "r1", user_id := 1, url := "u", platform := none, status := "failed",
         created_at := none, started_at := none, completed_at := none,
         error_message := none, retry_count := 0, max_retries := 3,
         media_files := [], metadata := [], total_size := none,
         processing_time := none }] "r1" "pending" none 5 =
      (true,
       [{ id := "r1", user_id := 1, url := "u", platform := none, status := "pending",
          created_at := none, started_at := none, completed_at := none,
          error_message := none, retry_count := 0, max_retries := 3,
          media_files := [], metadata := [], total_size := none,
          processing_time := none }]) ∧
    (applyStatusUpdate
      { id := "r1", user_id := 1, url := "u", platform := none, status := "failed",
        created_at := none, started_at := none, completed_at := none,
        error_message := none, retry_count := 0, max_retries := 3,
        media_files := [], metadata := [], total_size := none,
        processing_time := none } "pending" none 5).started_at ≠ some 5 ∧
    (applyStatusUpdate
      { id := "r1", user_id := 1, url := "u", platform := none, status := "failed",
        created_at := none, started_at := none, completed_at := none,
        error_message := none, retry_count := 0, max_retries := 3,
        media_files := [], metadata := [], total_size := none,
        processing_time := none } "pending" none 5).completed_at ≠ some 5 := by
  refine ⟨by decide, by decide, by decide⟩

/-- Witness for C8: a successful `completed` update on a one-record store
and a failed update on an empty store. -/
theorem updateStatusFrame_witness :
    update_status
      [{ id := "r1", user_id := 1, url := "u", platform := none, status := "processing",
         created_at := none, started_at := some 1, completed_at := none,
         error_message := none, retry_count := 0, max_retries := 3,
         media_files := [], metadata := [], total_size := none,
         processing_time := none }] "r1" "completed" (some "oops") 5 =
      (true,
       [applyStatusUpdate
         { id := "r1", user_id := 1, url := "u", platform := none, status := "processing",
           created_at := none, started_at := some 1, completed_at := none,
           error_message := none, retry_count := 0, max_retries := 3,
           media_files := [], metadata := [], total_size := none,
           processing_time := none } "completed" (some "oops") 5]) ∧
    update_status ([] : List StoredRequest) "zz" "completed" none 5 = (false, []) := by
  constructor
  · have h := (updateStatusFrame
      [{ id := "r1", user_id := 1, url := "u", platform := none, status := "processing",
         created_at := none, started_at := some 1, completed_at := none,
         error_message := none, retry_count := 0, max_retries := 3,
         media_files := [], metadata := [], total_size := none,
         processing_time := none }] "r1" "completed" (some "oops") 5).2.1
      [] _ [] rfl (by simp) rfl
    simpa using h
  · exact (updateStatusFrame [] "zz" "completed" none 5).1 (by simp)

/-! ## Claim C7: translation fallback chain and missing-key reporting -/

/-- C7: for a supported non-English language, a key found only in the
English dictionary resolves to the English text; a key found in neither the
requested language nor English resolves to the raw key in every supported
language; and `get_missing_translations` with reference `en` maps a language
missing exactly one key to the one-element list holding that key. -/
theorem translationFallback (files : String → TransDict) (key language : String) :
    (language ∈ SUPPORTED_LANGUAGES → language ≠ "en" →
      List.lookup key (files language) = none →
      ∀ tx, List.lookup key (files "en") = some tx →
        get_text files key language = tx) ∧
    (language ∈ SUPPORTED_LANGUAGES →
      List.lookup key (files language) = none →
      List.lookup key (files "en") = none →
      get_text files key language = key) ∧
    (∀ k, language ∈ SUPPORTED_LANGUAGES → language ≠ "en" →
      missingKeys files "en" language = [k] →
      List.lookup language (get_missing_translations files "en") = some [k]) := by
  refine ⟨?_, ?_, ?_⟩
  · intro hmem hne hnone tx htx
    simp [get_text, hmem, hnone, hne, htx]
  · intro hmem hnone hen
    by_cases hne : language = "en"
    · subst hne
      simp [get_text, hmem, hnone]
    · simp [get_text, hmem, hnone, hne, hen]
  · intro k hmem hne hmk
    have : language = "ru" ∨ language = "uz" := by
      simp [SUPPORTED_LANGUAGES] at hmem
      rcases hmem with rfl | rfl | rfl
      · exact absurd rfl hne
      · exact Or.inl rfl
      · exact Or.inr rfl
    rcases this with rfl | rfl
    · simp only [get_missing_translations,
        show SUPPORTED_LANGUAGES.filter (fun l => !(l == "en")) = ["ru", "uz"] from by decide,
        List.foldl, hmk]
      by_cases hz : (missingKeys files "en" "uz").isEmpty <;>
        simp [hz, List.lookup]
    · simp only [get_missing_translations,
        show SUPPORTED_LANGUAGES.filter (fun l => !(l == "en")) = ["ru", "uz"] from by decide,
        List.foldl, hmk]
      by_cases hr : (missingKeys files "en" "ru").isEmpty <;>
        simp [hr, List.lookup, hmk]

/-- Witness for C7 at concrete dictionaries: `greeting` exists only in
English, `ghost` exists nowhere, and `ru` is missing exactly `greeting`. -/
theorem translationFallback_witness :
    get_text
      (fun l => if l == "en" then [("greeting", "Hello"), ("bye", "Bye")]
                else [("bye", "Poka")]) "greeting" "ru" = "Hello" ∧
    get_text
      (fun l => if l == "en" then [("greeting", "Hello"), ("bye", "Bye")]
                else [("bye", "Poka")]) "ghost" "ru" = "ghost" ∧
    List.lookup "ru"
      (get_missing_translations
        (fun l => if l == "en" then [("greeting", "Hello"), ("bye", "Bye")]
                  else [("bye", "Poka")]) "en") = some ["greeting"] := by
  refine ⟨?_, ?_, ?_⟩
  · exact (translationFallback _ "greeting" "ru").1 (by decide) (by decide)
      (by decide) "Hello" (by decide)
  · exact (translationFallback _ "ghost" "ru").2.1 (by decide) (by decide) (by decide)
  · exact (translationFallback _ "x" "ru").2.2 "greeting" (by decide) (by decide)
      (by decide)

/-! ## Claim C2: the default download window arithmetic -/

/-- Helper: after `n + 1` download increments at time `t` from a fresh
store, the store holds exactly one user entry with one download counter:
`used = n + 1`, `reset_time = t + 300`. -/
theorem incDownloadN_state (user_id : Int) (t : Nat) :
    ∀ n : Nat, incDownloadN user_id t (n + 1) =
      [(userKey user_id,
        ⟨[(actionKey "download", ⟨n + 1, t + 300⟩)], [], none⟩)] := by
  have hlt : (decide (t + 300 ≤ t)) = false := decide_eq_false (by omega)
  intro n
  induction n with
  | zero =>
    simp [incDownloadN, increment_usage, emptyRLUser, limitConfigFor, defaultLimits,
      alistInsert, List.lookup, hlt]
  | succ n ih =>
    rw [incDownloadN, ih]
    simp [increment_usage, limitConfigFor, defaultLimits, alistInsert,
      List.lookup, hlt]

/-- C2 counterexample: with the default download limit (5 per 300 s), the
5th `increment_usage` call already makes `is_rate_limited` true — the claim
asserts it stays false through the first five calls. -/
theorem rateWindowSemantics_counterexample :
    is_rate_limited (incDownloadN 1 0 5) 1 "download" 0 = true ∧
    ¬ (is_rate_limited (incDownloadN 1 0 5) 1 "download" 0 = false) := by
  constructor
  · rw [show (5 : Nat) = 4 + 1 from rfl, incDownloadN_state 1 0 4]
    decide
  · rw [show (5 : Nat) = 4 + 1 from rfl, incDownloadN_state 1 0 4]
    decide

/-- C2 (amended): for a fresh user and the default download limit, the first
4 `increment_usage` calls within the window leave `is_rate_limited` false,
the 5th call (still within the window) already makes it true and it stays
true on the 6th; once the window has elapsed `is_rate_limited` is false
again and `get_rate_limit_info` reports `used = 0`, `remaining = 5`. -/
theorem rateWindowSemantics (user_id : Int) (t : Nat) :
    is_rate_limited (incDownloadN user_id t 0) user_id "download" t = false ∧
    is_rate_limited (incDownloadN user_id t 1) user_id "download" t = false ∧
    is_rate_limited (incDownloadN user_id t 2) user_id "download" t = false ∧
    is_rate_limited (incDownloadN user_id t 3) user_id "download" t = false ∧
    is_rate_limited (incDownloadN user_id t 4) user_id "download" t = false ∧
    is_rate_limited (incDownloadN user_id t 5) user_id "download" t = true ∧
    is_rate_limited (incDownloadN user_id t 6) user_id "download" t = true ∧
    is_rate_limited (incDownloadN user_id t 6) user_id "download" (t + 300) = false ∧
    (get_rate_limit_info (incDownloadN user_id t 6) user_id "download" (t + 300)).used = 0 ∧
    (get_rate_limit_info (incDownloadN user_id t 6) user_id "download" (t + 300)).remaining = 5 := by
  have hlt : (decide (t + 300 ≤ t)) = false := decide_eq_false (by omega)
  have hle : (decide (t + 300 ≤ t + 300)) = true := decide_eq_true (Nat.le_refl _)
  refine ⟨?_, ?_, ?_, ?_, ?_, ?_, ?_, ?_, ?_, ?_⟩
  · simp [incDownloadN, is_rate_limited, is_user_blocked, emptyRLUser, List.lookup]
  · rw [show (1 : Nat) = 0 + 1 from rfl, incDownloadN_state]
    simp [is_rate_limited, is_user_blocked, limitConfigFor, defaultLimits,
      List.lookup, hlt]
  · rw [show (2 : Nat) = 1 + 1 from rfl, incDownloadN_state]
    simp [is_rate_limited, is_user_blocked, limitConfigFor, defaultLimits,
      List.lookup, hlt]
  · rw [show (3 : Nat) = 2 + 1 from rfl, incDownloadN_state]
    simp [is_rate_limited, is_user_blocked, limitConfigFor, defaultLimits,
      List.lookup, hlt]
  · rw [show (4 : Nat) = 3 + 1 from rfl, incDownloadN_state]
    simp [is_rate_limited, is_user_blocked, limitConfigFor, defaultLimits,
      List.lookup, hlt]
  · rw [show (5 : Nat) = 4 + 1 from rfl, incDownloadN_state]
    simp [is_rate_limited, is_user_blocked, limitConfigFor, defaultLimits,
      List.lookup, hlt]
  · rw [show (6 : Nat) = 5 + 1 from rfl, incDownloadN_state]
    simp [is_rate_limited, is_user_blocked, limitConfigFor, defaultLimits,
      List.lookup, hlt]
  · rw [show (6 : Nat) = 5 + 1 from rfl, incDownloadN_state]
    simp [is_rate_limited, is_user_blocked, limitConfigFor, defaultLimits,
      List.lookup, hle]
  · rw [show (6 : Nat) = 5 + 1 from rfl, incDownloadN_state]
    simp [get_rate_limit_info, limitConfigFor, defaultLimits, List.lookup, hle]
  · rw [show (6 : Nat) = 5 + 1 from rfl, incDownloadN_state]
    simp [get_rate_limit_info, limitConfigFor, defaultLimits, List.lookup, hle]

/-! ## Claim C10: unblocking and resetting are total and idempotent -/

/-- Helper: looking up a key right after inserting it yields the inserted
value. -/
theorem lookupAlistInsert {α : Type} (k : String) (v : α) :
    ∀ l : List (String × α), List.lookup k (alistInsert k v l) = some v := by
  intro l
  induction l with
  | nil => simp [alistInsert, List.lookup]
  | cons p rest ih =>
    obtain ⟨k', v'⟩ := p
    by_cases h : k' = k
    · subst h
      simp [alistInsert, List.lookup]
    · have h1 : (k' == k) = false := by simpa using h
      have h2 : (k == k') = false := by simpa using (Ne.symm h)
      simp [alistInsert, h1, List.lookup, h2, ih]

/-- C10: in the absence of storage faults, `unblock_user` returns true for
every user (with or without a stored entry or an active block), is
idempotent, and leaves the store unchanged when the user has no block;
`reset_user_limits` likewise returns true (and writes nothing) for a user
with no stored entry. -/
theorem unblockIdempotent (store : RateStore) (user_id : Int) :
    (unblock_user store user_id).1 = true ∧
    unblock_user (unblock_user store user_id).2 user_id =
      (true, (unblock_user store user_id).2) ∧
    ((∀ u, List.lookup (userKey user_id) store = some u → u.blocked_until = none) →
      (unblock_user store user_id).2 = store) ∧
    (List.lookup (userKey user_id) store = none →
      (reset_user_limits store user_id).1 = true ∧
      (reset_user_limits store user_id).2 = store) := by
  refine ⟨?_, ?_, ?_, ?_⟩
  · rcases h : List.lookup (userKey user_id) store with _ | u
    · simp [unblock_user, h]
    · rcases hb : u.blocked_until with _ | b <;> simp [unblock_user, h, hb]
  · rcases h : List.lookup (userKey user_id) store with _ | u
    · simp [unblock_user, h]
    · rcases hb : u.blocked_until with _ | b
      · simp [unblock_user, h, hb]
      · have h2 : List.lookup (userKey user_id)
            (alistInsert (userKey user_id) { u with blocked_until := none } store) =
            some { u with blocked_until := none } := lookupAlistInsert _ _ store
        simp [unblock_user, h, hb, h2]
  · intro hnb
    rcases h : List.lookup (userKey user_id) store with _ | u
    · simp [unblock_user, h]
    · simp [unblock_user, h, hnb u h]
  · intro h
    simp [reset_user_limits, h]

/-- Witness for C10 at a blocked user, a user with no entry, and a reset on
an empty store. -/
theorem unblockIdempotent_witness :
    (unblock_user [("user_9", ⟨[], [], some BlockMark.permanent⟩)] 9).1 = true ∧
    (unblock_user ([] : RateStore) 9).2 = ([] : RateStore) ∧
    (reset_user_limits ([] : RateStore) 9).1 = true := by
  refine ⟨(unblockIdempotent _ 9).1, ?_, ?_⟩
  · exact (unblockIdempotent ([] : RateStore) 9).2.2.1 (fun u hu => by simp at hu)
  · exact ((unblockIdempotent ([] : RateStore) 9).2.2.2 (by simp)).1

/-! ## Upsert semantics of the download-request store -/

/-- Helper: upserting a record whose id is fresh appends it. -/
theorem saveFresh : ∀ (store : List DownloadRequest) (q : DownloadRequest),
    (∀ r ∈ store, r.id ≠ q.id) → saveDownloadRequest store q = store ++ [q] := by
  intro store
  induction store with
  | nil => intro q _; rfl
  | cons r rest ih =>
    intro q h
    have hne : (r.id == q.id) = false := by
      simpa using h r (List.mem_cons_self r rest)
    simp [saveDownloadRequest, hne,
      ih q (fun x hx => h x (List.mem_cons_of_mem r hx))]

/-- Helper: upserting a record with the same id as the freshly appended last
record replaces that last record in place. -/
theorem saveReplaceLast : ∀ (store : List DownloadRequest) (q q' : DownloadRequest),
    (∀ r ∈ store, r.id ≠ q.id) → q'.id = q.id →
    saveDownloadRequest (store ++ [q]) q' = store ++ [q'] := by
  intro store
  induction store with
  | nil =>
    intro q q' _ hq
    have hbe : (q.id == q'.id) = true := by simp [hq]
    simp [saveDownloadRequest, hbe]
  | cons r rest ih =>
    intro q q' h hq
    have hne : (r.id == q'.id) = false := by
      have hr := h r (List.mem_cons_self r rest)
      rw [hq]
      simpa using hr
    simp [saveDownloadRequest, hne,
      ih q q' (fun x hx => h x (List.mem_cons_of_mem r hx)) hq]

/-- Helper: looking up the freshly appended record by id finds it. -/
theorem findAppendFresh : ∀ (store : List DownloadRequest) (q : DownloadRequest)
    (request_id : String),
    (∀ r ∈ store, r.id ≠ request_id) → q.id = request_id →
    findRequest (store ++ [q]) request_id = some q := by
  intro store
  induction store with
  | nil =>
    intro q request_id _ hq
    simp [findRequest, List.find?, hq]
  | cons r rest ih =>
    intro q request_id h hq
    have hne : (r.id == request_id) = false := by
      simpa using h r (List.mem_cons_self r rest)
    have := ih q request_id (fun x hx => h x (List.mem_cons_of_mem r hx)) hq
    simpa [findRequest, List.find?, hne] using this

/-! ## Claim C1: download workflow bookkeeping -/

/-- C1: the claimed guarantee is broken by the code, not nearly missed:
every invocation of `execute` raises — `ValueError` for a missing user,
`AttributeError` at the nonexistent `get_reset_time` when rate-limited,
and otherwise `TypeError` at the two-argument `validate_url` call — so the
stores are never written and zero DownloadRequests and zero Analytics
records are persisted, never exactly one of each.  In particular the
concrete invocation by an existing, non-rate-limited user with a supported
URL crashes at the validation call. -/
theorem executeNeverPersists (env : DlEnv) (s : Stores) :
    (execute env s).2.requests.length = s.requests.length ∧
    (execute env s).2.analytics.length = s.analytics.length ∧
    (∃ e : PyError, (execute env s).1 = Except.error e) ∧
    (execute
      { userExists := true, rateLimited := false, userId := 1,
        url := "https://vm.tiktok.com/ZMabcd/".data, platform := "tiktok" }
      ⟨[], []⟩).1 = Except.error (PyError.typeError "validate_url") := by
  refine ⟨?_, ?_, ?_, rfl⟩ <;>
    cases h1 : env.userExists <;> cases h2 : env.rateLimited <;>
      simp [execute, h1, h2]
